import Mathlib

/-!
Shallow embedding of `mmap-allocator` (src/src/lib.rs): a Rust allocator
that serves every request with a dedicated anonymous memory mapping.

Machine integers (`usize`) are modelled as `Nat`; the only overflow check
that the source performs is the one inside `Layout::from_size_align`
(`size <= isize::MAX - (align - 1)`), which we model explicitly because
`Layout::align_to` goes through it and its failure is mapped to
`AllocError` by the source (lines 22, 81-86, 139-144 of lib.rs).

The operating system is an oracle (`OS`): `mmap` maps a requested length
to `some address` or `none` (= `MAP_FAILED`), and `munmapOk` tells
whether a given `munmap` call succeeds.  Every operation returns its
result together with the list of memory events it performed (`mmap`
calls with the exact arguments passed, `copy_nonoverlapping` calls, and
`munmap` calls), so that claims about which OS calls happen, with which
byte counts, are statable.
-/

/-- `isize::MAX` on a 64-bit target. -/
def isizeMax : Nat := 2 ^ 63 - 1

/-- Rust `usize::is_power_of_two`. -/
def isPow2 (n : Nat) : Bool := n != 0 && (n &&& (n - 1)) == 0

/-- `core::alloc::Layout`: a size / alignment pair. -/
structure Layout where
  size : Nat
  align : Nat
deriving DecidableEq, Repr

/-- The invariant `Layout::from_size_align` enforces: power-of-two
alignment, and size small enough that rounding up to the alignment
cannot overflow `isize`. -/
def Layout.is_valid (l : Layout) : Bool :=
  isPow2 l.align && decide (l.size ≤ isizeMax - (l.align - 1))

/-- `Layout::from_size_align`: fails unless `align` is a power of two and
`size <= isize::MAX - (align - 1)`. -/
def Layout.from_size_align (size align : Nat) : Option Layout :=
  if isPow2 align = true ∧ size ≤ isizeMax - (align - 1) then
    some ⟨size, align⟩
  else
    none

/-- `Layout::align_to`: same size, alignment raised to
`max self.align align`, re-checked through `from_size_align`. -/
def Layout.align_to (l : Layout) (align : Nat) : Option Layout :=
  Layout.from_size_align l.size (max l.align align)

/-- Round `n` up to the next multiple of `a`; written as the source's
mask computation `(n + a - 1) & !(a - 1)`, which for a power-of-two `a`
equals `(n + a - 1) - (n + a - 1) % a`. -/
def roundUp (n a : Nat) : Nat := (n + a - 1) - (n + a - 1) % a

/-- `Layout::pad_to_align`: size rounded up to the alignment.  (No
overflow check is needed: the `from_size_align` invariant guarantees the
rounded size fits.) -/
def Layout.pad_to_align (l : Layout) : Layout := ⟨roundUp l.size l.align, l.align⟩

/-- Linux x86-64 values of the libc constants the source passes to
`mmap`. -/
def PROT_READ : Nat := 1

def PROT_WRITE : Nat := 2

def MAP_PRIVATE : Nat := 2

def MAP_ANON : Nat := 32

/-- A memory event performed by an operation: an `mmap` call with the
exact arguments the source passes (length, protection, flags, file
descriptor, offset — the address hint is always null), a
`copy_nonoverlapping` of `len` bytes from `src` to `dst`, or a `munmap`
of `len` bytes starting at `addr`. -/
inductive Event where
  | mmap (len prot flags : Nat) (fd : Int) (offset : Nat)
  | copy (src dst len : Nat)
  | munmap (addr len : Nat)
deriving DecidableEq, Repr

/-- The `mmap` call `allocate` makes: anonymous, private, read-write,
no backing file (fd = -1), offset 0. -/
def mmapEvent (len : Nat) : Event :=
  Event.mmap len (PROT_READ ||| PROT_WRITE) (MAP_PRIVATE ||| MAP_ANON) (-1) 0

/-- The operating system, as an oracle: `mmap len` is `some address` on
success and `none` for `MAP_FAILED`; `munmapOk addr len` tells whether
`munmap(addr, len)` returns 0 (true) or -1 (false). -/
structure OS where
  mmap : Nat → Option Nat
  munmapOk : Nat → Nat → Bool

/-- Outcome of an allocator operation: success, `AllocError`
(`AllocationFailure`), or a `panic!` (process abort). -/
inductive Outcome (α : Type) where
  | ok (val : α)
  | fail
  | panic
deriving DecidableEq, Repr

/-- The block handed back to the caller: `NonNull<[u8]>`, i.e. a base
address plus a length. -/
structure Mapping where
  addr : Nat
  len : Nat
deriving DecidableEq, Repr

/-- `MMapAllocator::allocate` (lib.rs lines 16-46).  Rejects alignments
above the page size, re-aligns the layout to the page size (this may
fail: `AllocError`), then calls `mmap` with the *size* of the re-aligned
layout and, on success, returns a block whose length is the layout's
padded size. -/
def allocate (page_size : Nat) (os : OS) (layout : Layout) :
    Outcome Mapping × List Event :=
  if layout.align > page_size then
    (Outcome.fail, [])
  else
    match layout.align_to page_size with
    | none => (Outcome.fail, [])
    | some l =>
      match os.mmap l.size with
      | none => (Outcome.fail, [mmapEvent l.size])
      | some addr => (Outcome.ok ⟨addr, l.pad_to_align.size⟩, [mmapEvent l.size])

/-- `MMapAllocator::deallocate` (lib.rs lines 48-58): one `munmap` call
with the *caller's* `layout.size()` (no re-alignment, no padding);
panics when the `munmap` fails. -/
def deallocate (os : OS) (ptr : Nat) (layout : Layout) :
    Outcome Unit × List Event :=
  if os.munmapOk ptr layout.size then
    (Outcome.ok (), [Event.munmap ptr layout.size])
  else
    (Outcome.panic, [Event.munmap ptr layout.size])

/-- `MMapAllocator::allocate_zeroed` (lib.rs lines 60-63): delegates to
`allocate` (anonymous mappings are already zeroed). -/
def allocate_zeroed (page_size : Nat) (os : OS) (layout : Layout) :
    Outcome Mapping × List Event :=
  allocate page_size os layout

/-- `MMapAllocator::grow` (lib.rs lines 65-109).  The
`debug_assert!(new_layout.size() >= old_layout.size())` is compiled out
in release builds, so it does not appear here.  Only the *new* layout's
alignment is checked against the page size.  Both layouts are re-aligned
to the page size; if the padded layouts are equal the grown block is the
old pointer with the padded length (no OS call); otherwise a fresh block
is allocated, `old_layout.size()` bytes are copied, and the old block is
deallocated. -/
def grow (page_size : Nat) (os : OS) (ptr : Nat) (old_layout new_layout : Layout) :
    Outcome Mapping × List Event :=
  if new_layout.align > page_size then
    (Outcome.fail, [])
  else
    match old_layout.align_to page_size with
    | none => (Outcome.fail, [])
    | some ol =>
      match new_layout.align_to page_size with
      | none => (Outcome.fail, [])
      | some nl =>
        if ol.pad_to_align = nl.pad_to_align then
          (Outcome.ok ⟨ptr, nl.pad_to_align.size⟩, [])
        else
          match allocate page_size os nl with
          | (Outcome.fail, t) => (Outcome.fail, t)
          | (Outcome.panic, t) => (Outcome.panic, t)
          | (Outcome.ok m, t) =>
            match deallocate os ptr ol with
            | (Outcome.ok _, t2) =>
              (Outcome.ok m, t ++ [Event.copy ptr m.addr ol.size] ++ t2)
            | (_, t2) =>
              (Outcome.panic, t ++ [Event.copy ptr m.addr ol.size] ++ t2)

/-- `MMapAllocator::grow_zeroed` (lib.rs lines 111-121): delegates to
`grow`. -/
def grow_zeroed (page_size : Nat) (os : OS) (ptr : Nat) (old_layout new_layout : Layout) :
    Outcome Mapping × List Event :=
  grow page_size os ptr old_layout new_layout

/-- `MMapAllocator::shrink` (lib.rs lines 123-162).  The
`debug_assert!(new_layout.size() <= old_layout.size())` is compiled out
in release builds.  Only the *new* layout's alignment is checked.  The
retained area is the new layout's padded size; the trailing
`old padded - retained` bytes are unmapped when that count is positive
(for in-contract calls, `retained ≤ old padded`, so the `Nat`
subtraction agrees with the source's `usize` subtraction); a failing
`munmap` panics. -/
def shrink (page_size : Nat) (os : OS) (ptr : Nat) (old_layout new_layout : Layout) :
    Outcome Mapping × List Event :=
  if new_layout.align > page_size then
    (Outcome.fail, [])
  else
    match old_layout.align_to page_size with
    | none => (Outcome.fail, [])
    | some ol =>
      match new_layout.align_to page_size with
      | none => (Outcome.fail, [])
      | some nl =>
        let retained_area_size := nl.pad_to_align.size
        let truncated_area_ptr := ptr + retained_area_size
        let truncated_area_size := ol.pad_to_align.size - retained_area_size
        if truncated_area_size > 0 then
          if os.munmapOk truncated_area_ptr truncated_area_size then
            (Outcome.ok ⟨ptr, retained_area_size⟩,
              [Event.munmap truncated_area_ptr truncated_area_size])
          else
            (Outcome.panic, [Event.munmap truncated_area_ptr truncated_area_size])
        else
          (Outcome.ok ⟨ptr, retained_area_size⟩, [])

/-- An OS that grants every `mmap` at the page-aligned address 4096 and
succeeds on every `munmap`. -/
def grantAll : OS := ⟨fun _ => some 4096, fun _ _ => true⟩

/-- An OS that refuses every `mmap` (out of memory) but succeeds on
every `munmap`. -/
def noMem : OS := ⟨fun _ => none, fun _ _ => true⟩

/-- An OS that grants every `mmap` but fails every `munmap`. -/
def badUnmap : OS := ⟨fun _ => some 4096, fun _ _ => false⟩

/-! ### Arithmetic and layout lemmas -/

theorem isPow2_pos {n : Nat} (h : isPow2 n = true) : 0 < n := by
  unfold isPow2 at h
  simp only [Bool.and_eq_true, bne_iff_ne, ne_eq, beq_iff_eq] at h
  exact Nat.pos_of_ne_zero h.1

theorem roundUp_eq_div (n a : Nat) : roundUp n a = (n + a - 1) / a * a := by
  unfold roundUp
  rw [Nat.sub_eq_iff_eq_add (Nat.mod_le _ _)]
  exact (Nat.div_add_mod' _ _).symm

theorem roundUp_mod (n a : Nat) : roundUp n a % a = 0 := by
  rw [roundUp_eq_div]
  exact Nat.mul_mod_left _ _

theorem roundUp_le_roundUp {a b : Nat} (P : Nat) (h : a ≤ b) :
    roundUp a P ≤ roundUp b P := by
  rw [roundUp_eq_div, roundUp_eq_div]
  exact Nat.mul_le_mul (Nat.div_le_div_right (by omega)) (Nat.le_refl P)

theorem align_to_page (l : Layout) (page_size : Nat)
    (hpow : isPow2 page_size = true) (hal : l.align ≤ page_size)
    (hfit : l.size ≤ isizeMax - (page_size - 1)) :
    l.align_to page_size = some ⟨l.size, page_size⟩ := by
  unfold Layout.align_to Layout.from_size_align
  rw [Nat.max_eq_right hal, if_pos ⟨hpow, hfit⟩]

theorem align_to_some {l l' : Layout} {P : Nat} (h : l.align_to P = some l') :
    l' = ⟨l.size, max l.align P⟩ := by
  unfold Layout.align_to Layout.from_size_align at h
  split at h
  · exact (Option.some.inj h).symm
  · simp at h

/-! ### Claim C1 -/

/-- Claim C1 (counterexample): the layout `(isize::MAX, 1)` is a valid
`Layout` with positive size and alignment below the page size 4096, and
the OS `grantAll` grants every mapping request, yet `allocate` fails:
re-aligning the layout to the page size overflows `isize::MAX`, so the
claim "allocate succeeds for every Layout with size > 0 and
alignment ≤ page size, given the OS grants the mapping" is false. -/
theorem C1_counterexample :
    Layout.is_valid ⟨isizeMax, 1⟩ = true ∧
    0 < (⟨isizeMax, 1⟩ : Layout).size ∧
    (⟨isizeMax, 1⟩ : Layout).align ≤ 4096 ∧
    (∀ len, grantAll.mmap len = some 4096) ∧
    (allocate 4096 grantAll ⟨isizeMax, 1⟩).1 = Outcome.fail := by
  refine ⟨by decide, by decide, by decide, fun _ => rfl, by decide⟩

/-- Claim C1 (amended): for every Layout with size > 0, alignment ≤ page
size, and size small enough that padding to the page size keeps the
layout valid (`size ≤ isize::MAX - (page_size - 1)`), allocate succeeds
given the OS grants the mapping at a page-aligned address, and returns a
block whose length is the requested size rounded up to the next multiple
of the page size and whose base address is a multiple of the page
size. -/
theorem C1_allocate_success (page_size : Nat) (os : OS) (layout : Layout) (a : Nat)
    (hpow : isPow2 page_size = true)
    (hal : layout.align ≤ page_size)
    (hpos : 0 < layout.size)
    (hfit : layout.size ≤ isizeMax - (page_size - 1))
    (hgrant : os.mmap layout.size = some a)
    (haligned : a % page_size = 0) :
    (allocate page_size os layout).1 =
      Outcome.ok ⟨a, (layout.size + page_size - 1) / page_size * page_size⟩ ∧
    a % page_size = 0 := by
  have hng : ¬ layout.align > page_size := by omega
  refine ⟨?_, haligned⟩
  rw [← roundUp_eq_div]
  simp [allocate, hng, align_to_page layout page_size hpow hal hfit, hgrant,
    Layout.pad_to_align]

/-- Claim C1 (witness): the amended theorem at page size 4096, layout
`(10, 16)`, and an OS granting address 4096. -/
theorem C1_witness :
    (allocate 4096 grantAll ⟨10, 16⟩).1 =
      Outcome.ok ⟨4096, (10 + 4096 - 1) / 4096 * 4096⟩ ∧
    (4096 : Nat) % 4096 = 0 :=
  C1_allocate_success 4096 grantAll ⟨10, 16⟩ 4096 (by decide) (by decide)
    (by decide) (by decide) rfl (by decide)

/-! ### Claim C2 -/

/-- Claim C2 (counterexample): `(10, 8192)` is a valid Layout whose
alignment 8192 exceeds the page size 4096, yet `grow` and `shrink` with
that layout in the *old* position (and a small-alignment new layout)
succeed instead of returning `AllocationFailure`: the source checks only
the new layout's alignment. -/
theorem C2_counterexample :
    Layout.is_valid ⟨10, 8192⟩ = true ∧
    (⟨10, 8192⟩ : Layout).align > 4096 ∧
    (grow 4096 grantAll 4096 ⟨10, 8192⟩ ⟨10, 16⟩).1 = Outcome.ok ⟨4096, 4096⟩ ∧
    (shrink 4096 grantAll 4096 ⟨10, 8192⟩ ⟨10, 16⟩).1 = Outcome.ok ⟨4096, 4096⟩ := by
  refine ⟨by decide, by decide, by decide, by decide⟩

/-- Claim C2 (amended): `allocate` returns `AllocationFailure` whenever
its layout's alignment exceeds the page size, and `grow` and `shrink`
return `AllocationFailure` whenever the *new* layout's alignment exceeds
the page size, regardless of the sizes involved; the old layout's
alignment is not checked. -/
theorem C2_align_gt_rejected (page_size : Nat) (os : OS) (ptr : Nat)
    (layout old_layout new_layout : Layout) :
    (layout.align > page_size → (allocate page_size os layout).1 = Outcome.fail) ∧
    (new_layout.align > page_size →
      (grow page_size os ptr old_layout new_layout).1 = Outcome.fail ∧
      (shrink page_size os ptr old_layout new_layout).1 = Outcome.fail) := by
  constructor
  · intro h
    simp [allocate, h]
  · intro h
    exact ⟨by simp [grow, h], by simp [shrink, h]⟩

/-- Claim C2 (witness): the amended theorem at page size 4096 with the
over-aligned layout `(10, 8192)` in every checked position. -/
theorem C2_witness :
    (allocate 4096 grantAll ⟨10, 8192⟩).1 = Outcome.fail ∧
    (grow 4096 grantAll 4096 ⟨10, 16⟩ ⟨10, 8192⟩).1 = Outcome.fail ∧
    (shrink 4096 grantAll 4096 ⟨10, 16⟩ ⟨10, 8192⟩).1 = Outcome.fail :=
  ⟨(C2_align_gt_rejected 4096 grantAll 4096 ⟨10, 8192⟩ ⟨10, 16⟩ ⟨10, 8192⟩).1 (by decide),
   ((C2_align_gt_rejected 4096 grantAll 4096 ⟨10, 8192⟩ ⟨10, 16⟩ ⟨10, 8192⟩).2 (by decide)).1,
   ((C2_align_gt_rejected 4096 grantAll 4096 ⟨10, 8192⟩ ⟨10, 16⟩ ⟨10, 8192⟩).2 (by decide)).2⟩

/-! ### Claim C5 -/

/-- Claim C5 (counterexample): allocating `(10, 16)` at page size 4096
produces a mapping of length 4096, but the matching `deallocate` passes
byte count 10 — the caller's unpadded `layout.size()` — to `munmap`, so
the claim "the byte count passed to the OS unmap primitive equals the
mapping's entire mapped length" is false. -/
theorem C5_counterexample :
    (allocate 4096 grantAll ⟨10, 16⟩).1 = Outcome.ok ⟨4096, 4096⟩ ∧
    (deallocate grantAll 4096 ⟨10, 16⟩).2 = [Event.munmap 4096 10] ∧
    (10 : Nat) ≠ 4096 := by
  refine ⟨by decide, by decide, by decide⟩

/-- Claim C5 (amended): `deallocate` passes the caller's unpadded
`layout.size` — not the mapping's padded length — to the OS unmap
primitive; since `munmap` removes every page that overlaps the given
range, the range `[ptr, ptr + layout.size)` page-rounds to exactly the
mapping's recorded length (`roundUp layout.size page_size = m.len` for a
mapping produced by `allocate` on that layout), so the full mapping is
released. -/
theorem C5_deallocate_unpadded (page_size : Nat) (os os2 : OS)
    (layout : Layout) (m : Mapping)
    (hpow : isPow2 page_size = true)
    (hal : layout.align ≤ page_size)
    (hfit : layout.size ≤ isizeMax - (page_size - 1))
    (hok : (allocate page_size os layout).1 = Outcome.ok m) :
    (deallocate os2 m.addr layout).2 = [Event.munmap m.addr layout.size] ∧
    roundUp layout.size page_size = m.len := by
  constructor
  · rcases h : os2.munmapOk m.addr layout.size <;> simp [deallocate, h]
  · have hng : ¬ layout.align > page_size := by omega
    rcases hm : os.mmap layout.size with _ | a
    · simp [allocate, hng, align_to_page layout page_size hpow hal hfit, hm] at hok
    · simp [allocate, hng, align_to_page layout page_size hpow hal hfit, hm,
        Layout.pad_to_align] at hok
      rw [← hok]

/-- Claim C5 (witness): the amended theorem at page size 4096, layout
`(10, 16)`, mapping `(4096, 4096)` produced by `allocate` under
`grantAll`. -/
theorem C5_witness :
    (deallocate grantAll 4096 ⟨10, 16⟩).2 = [Event.munmap 4096 10] ∧
    roundUp 10 4096 = 4096 :=
  C5_deallocate_unpadded 4096 grantAll grantAll ⟨10, 16⟩ ⟨4096, 4096⟩
    (by decide) (by decide) (by decide) (by decide)

/-! ### Claim C6 -/

/-- Claim C6 (counterexample): the accepted request `(10, 16)` at page
size 4096 leads to an `mmap` call whose length argument is 10 — the
requested size — not the padded size 4096, so the claim "the length
passed to the OS anonymous-mapping primitive is exactly the padded size"
is false. -/
theorem C6_counterexample :
    (allocate 4096 grantAll ⟨10, 16⟩).2 =
      [Event.mmap 10 (PROT_READ ||| PROT_WRITE) (MAP_PRIVATE ||| MAP_ANON) (-1) 0] ∧
    (10 : Nat) ≠ (10 + 4096 - 1) / 4096 * 4096 := by
  refine ⟨by decide, by decide⟩

/-- Claim C6 (amended): for every accepted allocate request (alignment ≤
page size, page-padded size within `isize::MAX`), the length passed to
the OS anonymous-mapping primitive is the *requested* size (unchanged by
the re-alignment to the page size; the OS itself rounds mappings up to
page granularity), with read-write protection, anonymous and private
flags, no backing file (fd -1) and offset 0 — and this is the only OS
call allocate makes, whether or not the mapping is granted. -/
theorem C6_mmap_args (page_size : Nat) (os : OS) (layout : Layout)
    (hpow : isPow2 page_size = true)
    (hal : layout.align ≤ page_size)
    (hfit : layout.size ≤ isizeMax - (page_size - 1)) :
    (allocate page_size os layout).2 =
      [Event.mmap layout.size (PROT_READ ||| PROT_WRITE)
        (MAP_PRIVATE ||| MAP_ANON) (-1) 0] := by
  have hng : ¬ layout.align > page_size := by omega
  rcases hm : os.mmap layout.size with _ | a <;>
    simp [allocate, hng, align_to_page layout page_size hpow hal hfit, hm, mmapEvent]

/-- Claim C6 (witness): the amended theorem at page size 4096, layout
`(10, 16)`, OS `grantAll`. -/
theorem C6_witness :
    (allocate 4096 grantAll ⟨10, 16⟩).2 =
      [Event.mmap 10 (PROT_READ ||| PROT_WRITE) (MAP_PRIVATE ||| MAP_ANON) (-1) 0] :=
  C6_mmap_args 4096 grantAll ⟨10, 16⟩ (by decide) (by decide) (by decide)

/-! ### Claim C3 -/

/-- Claim C3: for every valid grow call (new size ≥ old size, both
alignments ≤ page size, both sizes page-paddable): when the page-padded
sizes agree, grow returns the same base address with the (unchanged)
padded length and performs no OS call; otherwise it allocates a fresh
mapping for the new layout (one `mmap`), copies exactly the first
`old_layout.size` bytes — not the padded size — from the old block to
the new one, deallocates the old block, and returns the new mapping. -/
theorem C3_grow_paths (page_size : Nat) (os : OS) (ptr : Nat)
    (old_layout new_layout : Layout) (a : Nat)
    (hpow : isPow2 page_size = true)
    (hge : old_layout.size ≤ new_layout.size)
    (hoal : old_layout.align ≤ page_size)
    (hnal : new_layout.align ≤ page_size)
    (hofit : old_layout.size ≤ isizeMax - (page_size - 1))
    (hnfit : new_layout.size ≤ isizeMax - (page_size - 1)) :
    (roundUp old_layout.size page_size = roundUp new_layout.size page_size →
      grow page_size os ptr old_layout new_layout =
        (Outcome.ok ⟨ptr, roundUp new_layout.size page_size⟩, [])) ∧
    (roundUp old_layout.size page_size ≠ roundUp new_layout.size page_size →
      os.mmap new_layout.size = some a →
      os.munmapOk ptr old_layout.size = true →
      grow page_size os ptr old_layout new_layout =
        (Outcome.ok ⟨a, roundUp new_layout.size page_size⟩,
          [mmapEvent new_layout.size, Event.copy ptr a old_layout.size,
           Event.munmap ptr old_layout.size])) := by
  have hng : ¬ new_layout.align > page_size := by omega
  have h1 := align_to_page old_layout page_size hpow hoal hofit
  have h2 := align_to_page new_layout page_size hpow hnal hnfit
  have h3 := align_to_page ⟨new_layout.size, page_size⟩ page_size hpow
    (Nat.le_refl page_size) hnfit
  constructor
  · intro heq
    simp [grow, hng, h1, h2, Layout.pad_to_align, Layout.mk.injEq, heq]
  · intro hne hm hd
    simp [grow, hng, h1, h2, Layout.pad_to_align, Layout.mk.injEq, hne,
      allocate, h3, hm, deallocate, hd, mmapEvent]

/-- Claim C3 (witness): the relocating path at page size 4096, growing
`(10, 16)` to `(4106, 64)` under `grantAll`: one `mmap` of 4106 bytes,
a copy of the 10 live bytes, and a `munmap` of the old block. -/
theorem C3_witness :
    grow 4096 grantAll 4096 ⟨10, 16⟩ ⟨4106, 64⟩ =
      (Outcome.ok ⟨4096, roundUp 4106 4096⟩,
        [mmapEvent 4106, Event.copy 4096 4096 10, Event.munmap 4096 10]) :=
  (C3_grow_paths 4096 grantAll 4096 ⟨10, 16⟩ ⟨4106, 64⟩ 4096 (by decide)
      (by decide) (by decide) (by decide) (by decide) (by decide)).2
    (by decide) rfl rfl

/-! ### Claim C4 -/

/-- Claim C4: for every valid shrink call (new size ≤ old size, both
alignments ≤ page size, both sizes page-paddable): when the new padded
size equals the old padded size, shrink returns the same mapping
(address and length unchanged) with no OS call; otherwise it unmaps
exactly the trailing byte range from the retained (new padded) size up
to the current (old padded) size and returns the same base address with
the new, smaller padded length. -/
theorem C4_shrink_paths (page_size : Nat) (os : OS) (ptr : Nat)
    (old_layout new_layout : Layout)
    (hpow : isPow2 page_size = true)
    (hle : new_layout.size ≤ old_layout.size)
    (hoal : old_layout.align ≤ page_size)
    (hnal : new_layout.align ≤ page_size)
    (hofit : old_layout.size ≤ isizeMax - (page_size - 1))
    (hnfit : new_layout.size ≤ isizeMax - (page_size - 1)) :
    (roundUp new_layout.size page_size = roundUp old_layout.size page_size →
      shrink page_size os ptr old_layout new_layout =
        (Outcome.ok ⟨ptr, roundUp old_layout.size page_size⟩, [])) ∧
    (roundUp new_layout.size page_size ≠ roundUp old_layout.size page_size →
      os.munmapOk (ptr + roundUp new_layout.size page_size)
        (roundUp old_layout.size page_size - roundUp new_layout.size page_size) = true →
      shrink page_size os ptr old_layout new_layout =
        (Outcome.ok ⟨ptr, roundUp new_layout.size page_size⟩,
          [Event.munmap (ptr + roundUp new_layout.size page_size)
            (roundUp old_layout.size page_size - roundUp new_layout.size page_size)])) := by
  have hng : ¬ new_layout.align > page_size := by omega
  have h1 := align_to_page old_layout page_size hpow hoal hofit
  have h2 := align_to_page new_layout page_size hpow hnal hnfit
  constructor
  · intro heq
    have hz : ¬ 0 < roundUp old_layout.size page_size - roundUp new_layout.size page_size := by
      omega
    simp [shrink, hng, h1, h2, Layout.pad_to_align, hz, heq]
  · intro hne hd
    have hlt : roundUp new_layout.size page_size < roundUp old_layout.size page_size := by
      have := roundUp_le_roundUp page_size hle
      omega
    have hz : 0 < roundUp old_layout.size page_size - roundUp new_layout.size page_size := by
      omega
    simp [shrink, hng, h1, h2, Layout.pad_to_align, hz, hd]

/-- Claim C4 (witness): the truncating path at page size 4096, shrinking
`(4112, 64)` to `(10, 16)` under `grantAll`: one `munmap` of the
trailing page. -/
theorem C4_witness :
    shrink 4096 grantAll 4096 ⟨4112, 64⟩ ⟨10, 16⟩ =
      (Outcome.ok ⟨4096, roundUp 10 4096⟩,
        [Event.munmap (4096 + roundUp 10 4096) (roundUp 4112 4096 - roundUp 10 4096)]) :=
  (C4_shrink_paths 4096 grantAll 4096 ⟨4112, 64⟩ ⟨10, 16⟩ (by decide)
      (by decide) (by decide) (by decide) (by decide) (by decide)).2
    (by decide) rfl

/-! ### Claim C7 -/

/-- Claim C7: on the relocating grow path (padded sizes differ), if the
OS refuses the replacement mapping, grow returns `AllocationFailure` and
its event trace is the single failed `mmap` — no byte was copied from
the original mapping and no `munmap` touched it, so the original mapping
is left intact. -/
theorem C7_grow_atomic_failure (page_size : Nat) (os : OS) (ptr : Nat)
    (old_layout new_layout : Layout)
    (hpow : isPow2 page_size = true)
    (hoal : old_layout.align ≤ page_size)
    (hnal : new_layout.align ≤ page_size)
    (hofit : old_layout.size ≤ isizeMax - (page_size - 1))
    (hnfit : new_layout.size ≤ isizeMax - (page_size - 1))
    (hne : roundUp old_layout.size page_size ≠ roundUp new_layout.size page_size)
    (hm : os.mmap new_layout.size = none) :
    grow page_size os ptr old_layout new_layout =
      (Outcome.fail, [mmapEvent new_layout.size]) := by
  have hng : ¬ new_layout.align > page_size := by omega
  have h1 := align_to_page old_layout page_size hpow hoal hofit
  have h2 := align_to_page new_layout page_size hpow hnal hnfit
  have h3 := align_to_page ⟨new_layout.size, page_size⟩ page_size hpow
    (Nat.le_refl page_size) hnfit
  simp [grow, hng, h1, h2, Layout.pad_to_align, Layout.mk.injEq, hne,
    allocate, h3, hm, mmapEvent]

/-- Claim C7 (witness): growing `(10, 16)` to `(4106, 64)` at page size
4096 under the refusing OS `noMem`. -/
theorem C7_witness :
    grow 4096 noMem 4096 ⟨10, 16⟩ ⟨4106, 64⟩ =
      (Outcome.fail, [mmapEvent 4106]) :=
  C7_grow_atomic_failure 4096 noMem 4096 ⟨10, 16⟩ ⟨4106, 64⟩ (by decide)
    (by decide) (by decide) (by decide) (by decide) (by decide) rfl

/-! ### Claim C8 -/

/-- Claim C8: when an OS unmap fails — the full unmap inside
`deallocate`, or the trailing-range unmap inside `shrink` — the
operation panics (the process aborts); in particular the failure is
never surfaced as a recoverable `AllocationFailure`. -/
theorem C8_unmap_failure_panics :
    (∀ (os : OS) (ptr : Nat) (layout : Layout),
      os.munmapOk ptr layout.size = false →
      (deallocate os ptr layout).1 = Outcome.panic ∧
      (deallocate os ptr layout).1 ≠ Outcome.fail) ∧
    (∀ (page_size : Nat) (os : OS) (ptr : Nat) (old_layout new_layout : Layout),
      isPow2 page_size = true →
      old_layout.align ≤ page_size →
      new_layout.align ≤ page_size →
      old_layout.size ≤ isizeMax - (page_size - 1) →
      new_layout.size ≤ isizeMax - (page_size - 1) →
      roundUp new_layout.size page_size < roundUp old_layout.size page_size →
      os.munmapOk (ptr + roundUp new_layout.size page_size)
        (roundUp old_layout.size page_size - roundUp new_layout.size page_size) = false →
      (shrink page_size os ptr old_layout new_layout).1 = Outcome.panic ∧
      (shrink page_size os ptr old_layout new_layout).1 ≠ Outcome.fail) := by
  constructor
  · intro os ptr layout h
    constructor <;> simp [deallocate, h]
  · intro page_size os ptr old_layout new_layout hpow hoal hnal hofit hnfit hlt hbad
    have hng : ¬ new_layout.align > page_size := by omega
    have h1 := align_to_page old_layout page_size hpow hoal hofit
    have h2 := align_to_page new_layout page_size hpow hnal hnfit
    have hz : 0 < roundUp old_layout.size page_size - roundUp new_layout.size page_size := by
      omega
    constructor <;> simp [shrink, hng, h1, h2, Layout.pad_to_align, hz, hbad]

/-- Claim C8 (witness): a failing `munmap` (OS `badUnmap`) makes both a
`deallocate` of `(10, 16)` and a page-crossing `shrink` from `(4112,
64)` to `(10, 16)` panic. -/
theorem C8_witness :
    (deallocate badUnmap 4096 ⟨10, 16⟩).1 = Outcome.panic ∧
    (shrink 4096 badUnmap 4096 ⟨4112, 64⟩ ⟨10, 16⟩).1 = Outcome.panic :=
  ⟨(C8_unmap_failure_panics.1 badUnmap 4096 ⟨10, 16⟩ rfl).1,
   (C8_unmap_failure_panics.2 4096 badUnmap 4096 ⟨4112, 64⟩ ⟨10, 16⟩ (by decide)
      (by decide) (by decide) (by decide) (by decide) (by decide) rfl).1⟩

/-! ### Claim C9 -/

theorem allocate_ok_len {page_size : Nat} {os : OS} {l : Layout}
    {m : Mapping} {t : List Event}
    (h : allocate page_size os l = (Outcome.ok m, t)) :
    m.len % page_size = 0 := by
  unfold allocate at h
  by_cases hg : l.align > page_size
  · rw [if_pos hg] at h
    simp at h
  · rw [if_neg hg] at h
    rcases ha : l.align_to page_size with _ | l'
    · simp only [ha] at h
      simp at h
    · simp only [ha] at h
      rcases hm : os.mmap l'.size with _ | a
      · simp only [hm] at h
        simp at h
      · simp only [hm] at h
        have hl' : l' = ⟨l.size, page_size⟩ := by
          have h3 := align_to_some ha
          rwa [Nat.max_eq_right (by omega : l.align ≤ page_size)] at h3
        subst hl'
        have h2 := Outcome.ok.inj (congrArg Prod.fst h)
        rw [← h2]
        exact roundUp_mod l.size page_size

theorem grow_ok_len {page_size : Nat} {os : OS} {ptr : Nat}
    {old_layout new_layout : Layout} {m : Mapping} {t : List Event}
    (h : grow page_size os ptr old_layout new_layout = (Outcome.ok m, t)) :
    m.len % page_size = 0 := by
  unfold grow at h
  by_cases hg : new_layout.align > page_size
  · rw [if_pos hg] at h
    simp at h
  · rw [if_neg hg] at h
    rcases ha : old_layout.align_to page_size with _ | ol
    · simp only [ha] at h
      simp at h
    · simp only [ha] at h
      rcases hb : new_layout.align_to page_size with _ | nl
      · simp only [hb] at h
        simp at h
      · simp only [hb] at h
        have hnl : nl = ⟨new_layout.size, page_size⟩ := by
          have h3 := align_to_some hb
          rwa [Nat.max_eq_right (by omega : new_layout.align ≤ page_size)] at h3
        subst hnl
        split at h
        · have h2 := Outcome.ok.inj (congrArg Prod.fst h)
          rw [← h2]
          exact roundUp_mod new_layout.size page_size
        · split at h
          · simp at h
          · simp at h
          · rename_i m' t1 hA
            split at h
            · have h2 := Outcome.ok.inj (congrArg Prod.fst h)
              rw [← h2]
              exact allocate_ok_len hA
            · simp at h

theorem shrink_ok_len {page_size : Nat} {os : OS} {ptr : Nat}
    {old_layout new_layout : Layout} {m : Mapping} {t : List Event}
    (h : shrink page_size os ptr old_layout new_layout = (Outcome.ok m, t)) :
    m.len % page_size = 0 := by
  unfold shrink at h
  by_cases hg : new_layout.align > page_size
  · rw [if_pos hg] at h
    simp at h
  · rw [if_neg hg] at h
    rcases ha : old_layout.align_to page_size with _ | ol
    · simp only [ha] at h
      simp at h
    · simp only [ha] at h
      rcases hb : new_layout.align_to page_size with _ | nl
      · simp only [hb] at h
        simp at h
      · simp only [hb] at h
        have hnl : nl = ⟨new_layout.size, page_size⟩ := by
          have h3 := align_to_some hb
          rwa [Nat.max_eq_right (by omega : new_layout.align ≤ page_size)] at h3
        subst hnl
        split at h
        · split at h
          · have h2 := Outcome.ok.inj (congrArg Prod.fst h)
            rw [← h2]
            exact roundUp_mod new_layout.size page_size
          · simp at h
        · have h2 := Outcome.ok.inj (congrArg Prod.fst h)
          rw [← h2]
          exact roundUp_mod new_layout.size page_size

/-- Claim C9: under a positive page size, every successful `allocate`,
`allocate_zeroed`, `grow`, `grow_zeroed`, or `shrink` returns a Mapping
whose length is an exact multiple of the page size. -/
theorem C9_page_multiple (page_size : Nat) (os : OS) (hP : 0 < page_size) :
    (∀ l m t, allocate page_size os l = (Outcome.ok m, t) →
      m.len % page_size = 0) ∧
    (∀ l m t, allocate_zeroed page_size os l = (Outcome.ok m, t) →
      m.len % page_size = 0) ∧
    (∀ ptr ol nl m t, grow page_size os ptr ol nl = (Outcome.ok m, t) →
      m.len % page_size = 0) ∧
    (∀ ptr ol nl m t, grow_zeroed page_size os ptr ol nl = (Outcome.ok m, t) →
      m.len % page_size = 0) ∧
    (∀ ptr ol nl m t, shrink page_size os ptr ol nl = (Outcome.ok m, t) →
      m.len % page_size = 0) :=
  ⟨fun _ _ _ h => allocate_ok_len h,
   fun _ _ _ h => allocate_ok_len h,
   fun _ _ _ _ _ h => grow_ok_len h,
   fun _ _ _ _ _ h => grow_ok_len h,
   fun _ _ _ _ _ h => shrink_ok_len h⟩

/-- Claim C9 (witness): at page size 4096 under `grantAll`, the
allocation of `(10, 16)` yields a mapping of length 4096, a multiple of
the page size. -/
theorem C9_witness : (Mapping.mk 4096 4096).len % 4096 = 0 :=
  (C9_page_multiple 4096 grantAll (by decide)).1 ⟨10, 16⟩ ⟨4096, 4096⟩
    [mmapEvent 10] (by decide)

/-! ### Claim C10 -/

/-- Claim C10: the size-ordering precondition of grow is only a debug
assertion (absent from release builds, hence from this embedding), so a
call with `new_layout.size < old_layout.size`, both alignments ≤ page
size, and equal page-padded sizes is not rejected: grow returns success
with the same base address and the unchanged padded length. -/
theorem C10_grow_no_release_check (page_size : Nat) (os : OS) (ptr : Nat)
    (old_layout new_layout : Layout)
    (hpow : isPow2 page_size = true)
    (hlt : new_layout.size < old_layout.size)
    (hoal : old_layout.align ≤ page_size)
    (hnal : new_layout.align ≤ page_size)
    (hofit : old_layout.size ≤ isizeMax - (page_size - 1))
    (hnfit : new_layout.size ≤ isizeMax - (page_size - 1))
    (heq : roundUp new_layout.size page_size = roundUp old_layout.size page_size) :
    grow page_size os ptr old_layout new_layout =
      (Outcome.ok ⟨ptr, roundUp old_layout.size page_size⟩, []) := by
  have hng : ¬ new_layout.align > page_size := by omega
  have h1 := align_to_page old_layout page_size hpow hoal hofit
  have h2 := align_to_page new_layout page_size hpow hnal hnfit
  simp [grow, hng, h1, h2, Layout.pad_to_align, Layout.mk.injEq, heq]

/-- Claim C10 (witness): "growing" from `(20, 16)` down to `(10, 16)` at
page size 4096 succeeds in place with the unchanged one-page length. -/
theorem C10_witness :
    grow 4096 grantAll 4096 ⟨20, 16⟩ ⟨10, 16⟩ =
      (Outcome.ok ⟨4096, roundUp 20 4096⟩, []) :=
  C10_grow_no_release_check 4096 grantAll 4096 ⟨20, 16⟩ ⟨10, 16⟩ (by decide)
    (by decide) (by decide) (by decide) (by decide) (by decide) (by decide)
